import Mathlib

/-!
Verification of the Elibrary borrow and return domain logic.

The definitions below are a shallow embedding of the BorrowManager and
BookManager React components. JS numbers that hold counts, identifiers and
day-resolution dates become Int; JS strings become String; a possibly absent
value (undefined or null) becomes Option. Each React state update of the form
setX(prev => e) becomes a pure function from the whole component state to a
new state. Calendar dates are modelled as integer day numbers, so the JS
expression dueDate.setDate(today.getDate() + d) becomes addition of d, and
comparison of ISO date strings via new Date(x) < new Date(y) becomes integer
comparison.
-/

/-- A book record as stored in the books collection. -/
structure Book where
  id : Int
  title : String
  author : String
  genre : String
  isbn : String
  year : Int
  count : Int
  totalCopies : Int
deriving Repr, DecidableEq

/-- A library member as stored in the users collection. -/
structure User where
  id : String
  name : String
  email : String
  phone : String
deriving Repr, DecidableEq

/-- A borrow record as stored in the borrows collection. The userName field
is Option because the JS code stores users.find(...)?.name, which is
undefined when the member lookup fails. -/
structure Borrow where
  id : Int
  bookId : Int
  userId : String
  userName : Option String
  borrowDate : Int
  dueDate : Int
  returnDate : Option Int
  status : String
deriving Repr, DecidableEq

/-- The three persisted collections held in component state. -/
structure LibState where
  books : List Book
  users : List User
  borrows : List Borrow
deriving Repr, DecidableEq

/-- The book form data used by handleAddBook and handleUpdateBook; the id is
not part of the form. -/
structure BookForm where
  title : String
  author : String
  genre : String
  isbn : String
  year : Int
  count : Int
deriving Repr, DecidableEq

/-- Embedding of handleBorrow from the BorrowManager component. The JS code
performs no validation: it builds the new record, prepends it to borrows,
and decrements the count of every book whose id equals the selected book id.
The parameters today and newId stand for the impure reads new Date() and
Date.now(). -/
def handleBorrow (today newId bookId : Int) (userId : String)
    (borrowDuration : Int) (s : LibState) : LibState :=
  let newBorrow : Borrow :=
    { id := newId
      bookId := bookId
      userId := userId
      userName := (s.users.find? (fun u => u.id == userId)).map User.name
      borrowDate := today
      dueDate := today + borrowDuration
      returnDate := none
      status := "active" }
  { s with
    borrows := newBorrow :: s.borrows
    books := s.books.map (fun book =>
      if book.id == bookId then { book with count := book.count - 1 } else book) }

/-- Embedding of handleReturn from the BorrowManager component. The JS code
looks the record up by id and throws when it is absent, which the catch
turns into an error message with no state change; when found, it stamps the
return date and the status returned on every record with that id and
increments the count of every book whose id equals the bookId of the found
record. There is no check of the current status of the record. -/
def handleReturn (today borrowId : Int) (s : LibState) : LibState :=
  match s.borrows.find? (fun b => b.id == borrowId) with
  | none => s
  | some borrow =>
    { s with
      borrows := s.borrows.map (fun b =>
        if b.id == borrowId then
          { b with returnDate := some today, status := "returned" }
        else b)
      books := s.books.map (fun book =>
        if book.id == borrow.bookId then { book with count := book.count + 1 }
        else book) }

/-- Case-insensitive character list, embedding of toLowerCase. -/
def jsToLower (s : String) : List Char :=
  s.data.map Char.toLower

/-- Embedding of the JS needle-at-front test used to define includes. -/
def isPrefOf : List Char → List Char → Bool
  | [], _ => true
  | _ :: _, [] => false
  | n :: ns, h :: hs => n == h && isPrefOf ns hs

/-- Embedding of String.prototype.includes: the needle occurs as a
contiguous run somewhere in the haystack. -/
def containsSub (hay needle : List Char) : Bool :=
  match hay with
  | [] => needle.isEmpty
  | _ :: t => isPrefOf needle hay || containsSub t needle

/-- The matchesSearch expression inside filteredBorrows: the lowercased
member name contains the lowercased query, or the book linked by bookId
exists and its lowercased title contains the lowercased query. A record
whose userName is absent contributes false on the first disjunct. -/
def matchesSearch (books : List Book) (searchQuery : String) (b : Borrow) : Bool :=
  (match b.userName with
   | some n => containsSub (jsToLower n) (jsToLower searchQuery)
   | none => false)
  || (match books.find? (fun bk => bk.id == b.bookId) with
      | some bk => containsSub (jsToLower bk.title) (jsToLower searchQuery)
      | none => false)

/-- Embedding of the filteredBorrows computation: a single filter pass whose
predicate branches on the status filter string; the overdue branch also
requires an active status and a due date strictly before the evaluation
time, which stands for the impure read new Date(). -/
def filteredBorrows (books : List Book) (borrows : List Borrow)
    (searchQuery : String) (filter : String) (now : Int) : List Borrow :=
  borrows.filter (fun borrow =>
    let ms := matchesSearch books searchQuery borrow
    if filter == "all" then ms
    else if filter == "active" then ms && borrow.status == "active"
    else if filter == "overdue" then
      ms && borrow.status == "active" && decide (borrow.dueDate < now)
    else if filter == "returned" then ms && borrow.status == "returned"
    else ms)

/-- Embedding of handleAddBook from the BookManager component: the new book
takes every field from the form and sets totalCopies to the count field of
the form; it is appended at the end of the books collection. -/
def handleAddBook (newId : Int) (formData : BookForm) (s : LibState) : LibState :=
  let newBook : Book :=
    { id := newId
      title := formData.title
      author := formData.author
      genre := formData.genre
      isbn := formData.isbn
      year := formData.year
      count := formData.count
      totalCopies := formData.count }
  { s with books := s.books ++ [newBook] }

/-- Embedding of handleUpdateBook from the BookManager component: every book
whose id equals the edited id takes all form fields, including count, and
its totalCopies becomes Math.max of the form count and the old totalCopies. -/
def handleUpdateBook (editingId : Int) (formData : BookForm) (s : LibState) : LibState :=
  { s with books := s.books.map (fun book =>
      if book.id == editingId then
        { book with
          title := formData.title
          author := formData.author
          genre := formData.genre
          isbn := formData.isbn
          year := formData.year
          count := formData.count
          totalCopies := max formData.count book.totalCopies }
      else book) }

/-- Embedding of handleDeleteBook from the BookManager component: the books
collection is filtered to the books with a different id; users and borrows
are untouched. -/
def handleDeleteBook (bookId : Int) (s : LibState) : LibState :=
  { s with books := s.books.filter (fun book => book.id != bookId) }

/-- Number of borrow records with status active that reference the given
book id, as an integer so it can be compared with count arithmetic. -/
def activeBorrowCount (borrows : List Borrow) (bookId : Int) : Int :=
  ((borrows.filter
      (fun b => b.status == "active" && b.bookId == bookId)).length : Int)

/-- A one-book, one-member state used to evaluate the handlers at concrete
inputs: the single book has one copy, available. -/
def demoState : LibState :=
  { books := [{ id := 1, title := "Dune", author := "Herbert", genre := "Science Fiction",
                isbn := "9780441172719", year := 1965, count := 1, totalCopies := 1 }]
    users := [{ id := "u1", name := "Alice", email := "a@x.com", phone := "1" }]
    borrows := [] }

/-- A one-book state whose single book has no available copy. -/
def outOfStockState : LibState :=
  { books := [{ id := 3, title := "Emma", author := "Austen", genre := "Fiction",
                isbn := "9780141439587", year := 1815, count := 0, totalCopies := 1 }]
    users := [{ id := "u1", name := "Alice", email := "a@x.com", phone := "1" }]
    borrows := [] }

/-- C1: the claimed invariant 0 <= count <= totalCopies does not survive
every operation sequence: from a state with one book having count = 1 and
totalCopies = 1, borrowing once and then calling handleReturn twice on the
same record id leaves the book with count = 2, strictly above totalCopies,
because handleReturn increments the count without checking the status of
the record. -/
theorem count_exceeds_totalCopies_after_double_return :
    ((handleReturn 25 100 (handleReturn 20 100
        (handleBorrow 0 100 1 "u1" 14 demoState))).books.map
      (fun b => (b.count, b.totalCopies))) = [(2, 1)]
    ∧ ¬ ((2 : Int) ≤ 1) := by decide

/-- C2: the claimed ledger equation, that the number of active borrow
records referencing a book equals totalCopies minus count, does not survive
every operation sequence: after a borrow and two returns of the same record
id, the book has no active record but totalCopies minus count equals -1. -/
theorem ledger_equation_fails_after_double_return :
    (activeBorrowCount (handleReturn 25 200 (handleReturn 20 200
        (handleBorrow 0 200 1 "u1" 14 demoState))).borrows 1 = 0)
    ∧ ((handleReturn 25 200 (handleReturn 20 200
        (handleBorrow 0 200 1 "u1" 14 demoState))).books.map
        (fun b => b.totalCopies - b.count)) = [-1]
    ∧ ((0 : Int) ≠ -1) := by decide

/-- C3: handleBorrow performs no availability check: invoked on a book with
count = 0, it does not fail with BookUnavailable; it creates the borrow
record anyway and drives the count of the book to -1, mutating both
collections. -/
theorem borrow_at_zero_count_mutates_state :
    ((handleBorrow 0 300 3 "u1" 7 outOfStockState).books.map Book.count = [-1])
    ∧ ((handleBorrow 0 300 3 "u1" 7 outOfStockState).borrows.length = 1) := by decide

/-- C4: handleReturn never checks whether the record is already returned: a
second call on the same record id does not fail with AlreadyReturned and
increments the count of the referenced book a second time, from 1 to 2. -/
theorem second_return_increments_again :
    ((handleReturn 20 400 (handleBorrow 0 400 1 "u1" 14 demoState)).books.map
        Book.count = [1])
    ∧ ((handleReturn 30 400 (handleReturn 20 400
        (handleBorrow 0 400 1 "u1" 14 demoState))).books.map Book.count = [2]) := by decide

/-- C7: a borrow created by handleBorrow with duration d, 1 <= d <= 30, is
prepended to the borrows collection with dueDate equal to the borrow day
plus d, status active, returnDate absent, and borrowDate equal to the
borrow day. -/
theorem new_borrow_fields (today newId bookId : Int) (userId : String)
    (d : Int) (h1 : 1 ≤ d) (h2 : d ≤ 30) (s : LibState) :
    ∃ nb : Borrow,
      (handleBorrow today newId bookId userId d s).borrows = nb :: s.borrows
      ∧ nb.dueDate = today + d ∧ nb.status = "active"
      ∧ nb.returnDate = none ∧ nb.borrowDate = today :=
  ⟨_, rfl, rfl, rfl, rfl, rfl⟩

/-- Witness for the C7 theorem at a concrete fourteen-day borrow. -/
theorem new_borrow_fields_witness :
    ∃ nb : Borrow,
      (handleBorrow 0 100 1 "u1" 14 demoState).borrows = nb :: demoState.borrows
      ∧ nb.dueDate = 0 + 14 ∧ nb.status = "active"
      ∧ nb.returnDate = none ∧ nb.borrowDate = 0 :=
  new_borrow_fields 0 100 1 "u1" 14 (by decide) (by decide) demoState

/-- C10: handleAddBook appends one new book whose totalCopies is the count
field of the form, so the new book satisfies count = totalCopies. -/
theorem added_book_count_eq_totalCopies (newId : Int) (f : BookForm) (s : LibState) :
    ∃ nb : Book, (handleAddBook newId f s).books = s.books ++ [nb]
      ∧ nb.count = nb.totalCopies ∧ nb.count = f.count :=
  ⟨_, rfl, rfl, rfl⟩

/-- Applying the increment step of handleReturn after the decrement step of
handleBorrow, both keyed on the same book id, is the identity on a book. -/
theorem inc_after_dec_book (bookId : Int) (b : Book) :
    (fun book =>
        if book.id == bookId then { book with count := book.count + 1 } else book)
      ((fun book =>
        if book.id == bookId then { book with count := book.count - 1 } else book) b)
      = b := by
  obtain ⟨i, t, a, g, n, y, c, tc⟩ := b
  by_cases h : i = bookId <;> simp [h, sub_add_cancel]

/-- C8: creating a borrow with handleBorrow and then returning the record it
created with handleReturn leaves the books collection exactly as it was, so
the count of every book, borrowed or not, is restored. -/
theorem borrow_then_return_restores_books (today rday newId bookId : Int)
    (userId : String) (d : Int) (s : LibState) :
    (handleReturn rday newId (handleBorrow today newId bookId userId d s)).books
      = s.books := by
  unfold handleBorrow handleReturn
  simp only [List.find?_cons_of_pos, beq_self_eq_true, List.map_map]
  calc (s.books.map fun b =>
          (fun book => if book.id == bookId then
              { book with count := book.count + 1 } else book)
          ((fun book => if book.id == bookId then
              { book with count := book.count - 1 } else book) b))
      = s.books.map id := List.map_congr_left (fun b _ => inc_after_dec_book bookId b)
    _ = s.books := List.map_id s.books

/-- The edited book used for the book-edit claims: five copies owned, two
available, so three copies are out on loan. -/
def capBook : Book :=
  { id := 5, title := "Ulysses", author := "Joyce", genre := "Fiction",
    isbn := "9780199535675", year := 1922, count := 2, totalCopies := 5 }

/-- A state holding only capBook. -/
def capState : LibState :=
  { books := [capBook], users := [], borrows := [] }

/-- An edit form for capBook that raises the count field to seven. -/
def capForm : BookForm :=
  { title := "Ulysses", author := "Joyce", genre := "Fiction",
    isbn := "9780199535675", year := 1922, count := 7 }

/-- C5 counterexample: editing capBook, which has count 2 and totalCopies 5,
with a form whose count is 7 yields count 7 and totalCopies 7: totalCopies
rose by 2 while count rose by 5, so raising totalCopies does not raise
count by the same delta; and with three copies on loan nothing is rejected,
as no InvalidCapacity error exists in the code. -/
theorem update_raises_count_by_different_delta :
    ((handleUpdateBook 5 capForm capState).books.map
        (fun b => (b.count, b.totalCopies))) = [(7, 7)]
    ∧ ¬ ((7 : Int) - 2 = 7 - 5) := by decide

/-- C5 amended: handleUpdateBook sets the count of the edited book to the
form count and its totalCopies to the maximum of the form count and the old
totalCopies; in particular totalCopies never decreases on edit. There is no
InvalidCapacity rejection, and count moves to the form value independently
of how much totalCopies rises. -/
theorem update_book_count_and_totalCopies (editingId : Int) (f : BookForm)
    (s : LibState) (b : Book) (hb : b ∈ s.books) (hid : b.id = editingId) :
    ∃ b2 ∈ (handleUpdateBook editingId f s).books,
      b2.count = f.count ∧ b2.totalCopies = max f.count b.totalCopies
      ∧ b.totalCopies ≤ b2.totalCopies := by
  refine ⟨_, List.mem_map_of_mem _ hb, ?_, ?_, ?_⟩ <;> simp [hid, le_max_right]

/-- Witness for the C5 amended theorem at the concrete capacity-raising
edit. -/
theorem update_book_count_and_totalCopies_witness :
    ∃ b2 ∈ (handleUpdateBook 5 capForm capState).books,
      b2.count = capForm.count ∧ b2.totalCopies = max capForm.count capBook.totalCopies
      ∧ capBook.totalCopies ≤ b2.totalCopies :=
  update_book_count_and_totalCopies 5 capForm capState capBook (by decide) rfl

/-- The borrow-record update applied by handleReturn keeps the id of every
record, so looking a record up by id commutes with that update. -/
theorem return_mark_keeps_id (today rid : Int) :
    (fun b : Borrow =>
        ((if b.id == rid then
            { b with returnDate := some today, status := "returned" }
          else b).id == rid))
      = fun b : Borrow => (b.id == rid) := by
  funext b
  by_cases hb : b.id = rid <;> simp [hb]

/-- C9: handleDeleteBook leaves the borrows and users collections untouched,
and a later handleReturn on a dangling active record referencing the
deleted book still stamps the record returned while leaving every remaining
book, and hence every count, unchanged, because no remaining book carries
the deleted id. -/
theorem delete_book_frame_and_dangling_return
    (today bid rid : Int) (s : LibState) (r : Borrow)
    (hfind : s.borrows.find? (fun b => b.id == rid) = some r)
    (hbook : r.bookId = bid) :
    (handleDeleteBook bid s).borrows = s.borrows
    ∧ (handleDeleteBook bid s).users = s.users
    ∧ (handleReturn today rid (handleDeleteBook bid s)).books
        = (handleDeleteBook bid s).books
    ∧ (handleReturn today rid (handleDeleteBook bid s)).borrows.find?
        (fun b => b.id == rid)
      = some { r with returnDate := some today, status := "returned" } := by
  have hrid : (r.id == rid) = true := by
    have hp := List.find?_some hfind
    simpa using hp
  have hret : handleReturn today rid (handleDeleteBook bid s) =
      { handleDeleteBook bid s with
        borrows := (handleDeleteBook bid s).borrows.map (fun b =>
          if b.id == rid then
            { b with returnDate := some today, status := "returned" }
          else b)
        books := (handleDeleteBook bid s).books.map (fun book =>
          if book.id == r.bookId then { book with count := book.count + 1 }
          else book) } := by
    unfold handleReturn
    rw [show (handleDeleteBook bid s).borrows.find? (fun b => b.id == rid)
          = some r from hfind]
  refine ⟨rfl, rfl, ?_, ?_⟩
  · rw [hret]
    refine (List.map_congr_left ?_).trans (List.map_id _)
    intro b hbmem
    have hne : (b.id != bid) = true :=
      (List.mem_filter.mp
        (show b ∈ s.books.filter (fun book => book.id != bid) from hbmem)).2
    have : ¬ (b.id = r.bookId) := by
      rw [hbook]
      simpa using hne
    simp [this]
  · rw [hret]
    show ((handleDeleteBook bid s).borrows.map _).find? _ = _
    rw [show (handleDeleteBook bid s).borrows = s.borrows from rfl,
      List.find?_map]
    have hcomp : ((fun b : Borrow => (b.id == rid)) ∘ (fun b : Borrow =>
        if b.id == rid then
          { b with returnDate := some today, status := "returned" }
        else b))
        = fun b : Borrow => (b.id == rid) := by
      funext b
      by_cases hb : b.id = rid <;> simp [Function.comp, hb]
    rw [hcomp, hfind]
    have hr2 : r.id = rid := by simpa using hrid
    simp [hr2]

/-- An active borrow of the demo book, used for the deletion scenario. -/
def danglingRecord : Borrow :=
  { id := 500, bookId := 1, userId := "u1", userName := some "Alice",
    borrowDate := 0, dueDate := 14, returnDate := none, status := "active" }

/-- The demo state together with one outstanding borrow of its book. -/
def danglingState : LibState :=
  { books := demoState.books, users := demoState.users,
    borrows := [danglingRecord] }

/-- Witness for the C9 theorem: delete the only book, then return the
outstanding record. -/
theorem delete_book_frame_and_dangling_return_witness :
    (handleDeleteBook 1 danglingState).borrows = danglingState.borrows
    ∧ (handleDeleteBook 1 danglingState).users = danglingState.users
    ∧ (handleReturn 20 500 (handleDeleteBook 1 danglingState)).books
        = (handleDeleteBook 1 danglingState).books
    ∧ (handleReturn 20 500 (handleDeleteBook 1 danglingState)).borrows.find?
        (fun b => b.id == 500)
      = some { danglingRecord with returnDate := some 20, status := "returned" } :=
  delete_book_frame_and_dangling_return 20 1 500 danglingState danglingRecord
    (by decide) rfl

/-- Evaluation of the matchesSearch disjunction for a record whose member
name is present: it holds iff the lowercased name contains the lowercased
query or the linked book exists and its lowercased title contains the
lowercased query. -/
theorem matchesSearch_eq_true (books : List Book) (q : String) (r : Borrow)
    (nm : String) (hnm : r.userName = some nm) :
    matchesSearch books q r = true ↔
      containsSub (jsToLower nm) (jsToLower q) = true
      ∨ ∃ bk : Book, books.find? (fun x => x.id == r.bookId) = some bk
          ∧ containsSub (jsToLower bk.title) (jsToLower q) = true := by
  unfold matchesSearch
  rw [hnm]
  cases hfind : books.find? (fun bk => bk.id == r.bookId) <;> simp [hfind]

/-- C6: a record with a member name is in the overdue filter result iff it
is in the input, the case-insensitive search matches the member name or the
title of the linked book, its status is active, and the evaluation time is
strictly past its due date; so a returned record is excluded regardless of
its due date; and the result is a sublist of the input, so input order is
preserved. -/
theorem overdue_filter_spec (books : List Book) (borrows : List Borrow)
    (q : String) (asOf : Int) (r : Borrow) (nm : String)
    (hnm : r.userName = some nm) :
    (r ∈ filteredBorrows books borrows q "overdue" asOf ↔
      r ∈ borrows
      ∧ (containsSub (jsToLower nm) (jsToLower q) = true
         ∨ ∃ bk : Book, books.find? (fun x => x.id == r.bookId) = some bk
             ∧ containsSub (jsToLower bk.title) (jsToLower q) = true)
      ∧ r.status = "active" ∧ r.dueDate < asOf)
    ∧ (filteredBorrows books borrows q "overdue" asOf).Sublist borrows := by
  constructor
  · simp only [filteredBorrows, List.mem_filter]
    simp [matchesSearch_eq_true books q r nm hnm, and_assoc]
  · exact List.filter_sublist _

/-- An overdue active borrow of the demo book whose member is Alice. -/
def overdueRecord : Borrow :=
  { id := 600, bookId := 1, userId := "u1", userName := some "Alice",
    borrowDate := 0, dueDate := 10, returnDate := none, status := "active" }

/-- Witness for the C6 theorem: the overdue record is matched by the query
ali against the member name Alice and included at evaluation time 50. -/
theorem overdue_filter_spec_witness :
    overdueRecord ∈ filteredBorrows demoState.books [overdueRecord] "ali" "overdue" 50 :=
  ((overdue_filter_spec demoState.books [overdueRecord] "ali" 50 overdueRecord
      "Alice" rfl).1).mpr
    ⟨by decide, Or.inl (by decide), rfl, by decide⟩
